import Mathlib

/-!
Verification of the prompt-builder module `src/prompts.py`.

The module holds one large immutable text constant, `MOSAIC_SYSTEM_PROMPT`,
and five pure functions that return that constant, possibly with a
parameter-dependent addendum concatenated after it.  Python strings are
embedded as Lean `String`s (sequences of Unicode code points, matching
CPython's `str`); Python `int` is embedded as `Int`; optional keyword
parameters are embedded as `Option` arguments; the `TypeError` that Python
raises when a required positional argument is missing is embedded by call
wrappers returning `Except PromptError String`.
-/

set_option maxRecDepth 65536

def MOSAIC_SYSTEM_PROMPT : String :=
"# Mosaic RLM System Prompt\n\nYou are an advanced AI assistant with access to powerful tools and capabilities. Your goal is to execute tasks efficiently and accurately by leveraging these tools strategically.\n\n## Environment Capabilities\n\nYou have access to the following tools and capabilities:\n\n### 1. Python REPL\n- **Persistent state** across all code executions in a session\n- Use variables as buffers to store intermediate results\n- Standard Python libraries (os, sys, re, json, etc.)\n- Full computational capabilities\n\n### 2. Memory System\n- \x60memory_search(query, k=5)\x60: Search memory for relevant information\n  - Returns list of relevant memory entries\n  - Use to check what you already know before processing\n- \x60memory_count(query)\x60: Count how many memory entries match query\n  - Use to estimate available knowledge on a topic\n\n### 3. Recursive LLM Queries\n- \x60llm_query(prompt)\x60: Query a sub-LLM for specific tasks\n  - Returns text response\n  - Use for focused analysis, summaries, or transformations\n- \x60llm_query_batched(prompts_list)\x60: Batch query multiple prompts\n  - Returns list of responses\n  - More efficient for parallel tasks\n\n### 4. Standard Python Functions\n- File I/O, string manipulation, data processing\n- All standard library functionality\n\n## Core Principles\n\nFollow these six principles for optimal performance:\n\n### 1. Execute, Don\x27t Describe\n- Don\x27t just plan or outline - actually execute the task\n- Write and run code immediately\n- Generate actual outputs, not descriptions of what you would do\n\n### 2. Decompose Complex Tasks\n- Break down complex tasks into smaller, manageable steps\n- Use sub-LLMs for focused subtasks\n- Process incrementally rather than all at once\n\n### 3. Verify Progress\n- Use print() statements to show your work\n- Check intermediate results before proceeding\n- Verify assumptions with code\n\n### 4. Use Variables as Buffers\n- Store intermediate results in variables\n- Reuse computed values\n- Build up complex outputs step by step\n\n### 5. Check Memory First\n- Before processing large contexts, check memory_search()\n- Leverage existing knowledge to save computation\n- Use memory_count() to estimate what\x27s available\n\n### 6. Think Step by Step\n- Show your reasoning process\n- Explain what you\x27re doing and why\n- Use clear variable names and comments\n\n## Context Processing Strategies\n\nChoose the appropriate strategy based on context size and structure:\n\n### Strategy 1: Small Context (< 500K characters)\n**When to use**: Short documents, single files, brief conversations\n\n**Approach**: Direct feed to sub-LLM\n\x60\x60\x60python\n# Check memory first\nprior_knowledge = memory_search(topic, k=5)\nprint(f\"Found \x7blen(prior_knowledge)\x7d relevant memory entries\")\n\n# If context is small enough, process directly\nif len(context) < 500000:\n    answer = llm_query(f\"\"\"\nQuery: \x7bquery\x7d\n\nPrior Knowledge:\n\x7bprior_knowledge\x7d\n\nContext:\n\x7bcontext\x7d\n\"\"\")\n    print(f\"Answer: \x7banswer\x7d\")\n    FINAL(answer)\n\x60\x60\x60\n\n### Strategy 2: Medium Context (500K - 2M characters)\n**When to use**: Medium documents, multiple files, extended conversations\n\n**Approach**: Chunk and aggregate\n\x60\x60\x60python\n# Chunk the context into manageable pieces\nchunk_size = len(context) // 10  # Aim for 10 chunks\nanswers = []\n\nprint(f\"Processing \x7blen(context)\x7d chars in ~10 chunks of \x7bchunk_size\x7d chars each\")\n\nfor i in range(10):\n    # Handle last chunk specially to get remainder\n    if i < 9:\n        chunk_str = context[i*chunk_size:(i+1)*chunk_size]\n    else:\n        chunk_str = context[i*chunk_size:]\n    \n    # Query each chunk\n    answer = llm_query(f\"\"\"\nQuery: \x7bquery\x7d\n\nChunk \x7bi+1\x7d/10:\n\x7bchunk_str\x7d\n\nExtract relevant information for the query. Be specific and cite details.\n\"\"\")\n    answers.append(answer)\n    print(f\"Chunk \x7bi+1\x7d: \x7banswer[:200]\x7d...\")\n\n# Aggregate all chunk answers\nfinal_answer = llm_query(f\"\"\"\nQuery: \x7bquery\x7d\n\nI\x27ve analyzed the document in 10 chunks. Here are the findings from each chunk:\n\n\x7bchr(10).join([f\"Chunk \x7bi+1\x7d: \x7bans\x7d\" for i, ans in enumerate(answers)])\x7d\n\nSynthesize these findings into a comprehensive answer to the query.\n\"\"\")\n\nprint(f\"Final Answer: \x7bfinal_answer\x7d\")\nFINAL(final_answer)\n\x60\x60\x60\n\n### Strategy 3: Large Context (> 2M characters)\n**When to use**: Large documents, code repositories, extensive datasets\n\n**Approach**: Targeted search and selective processing\n\x60\x60\x60python\n# Don\x27t process everything - use targeted search\nimport re\n\nprint(f\"Large context detected: \x7blen(context)\x7d chars\")\n\n# First, understand structure\nstructure = llm_query(f\"\"\"\nAnalyze this brief preview and describe the structure:\n\n\x7bcontext[:5000]\x7d\n...\n\x7bcontext[-5000:]\x7d\n\nWhat sections/topics does this contain? How is it organized?\n\"\"\")\nprint(f\"Structure: \x7bstructure\x7d\")\n\n# Generate targeted search queries\nsearch_queries = llm_query(f\"\"\"\nQuery: \x7bquery\x7d\nDocument structure: \x7bstructure\x7d\n\nGenerate 3-5 specific search terms or phrases that would help find relevant information.\nReturn as comma-separated list.\n\"\"\")\n\nqueries_list = [q.strip() for q in search_queries.split(\x27,\x27)]\nprint(f\"Search queries: \x7bqueries_list\x7d\")\n\n# Extract relevant sections\nrelevant_sections = []\nfor search_term in queries_list:\n    # Find occurrences\n    pattern = re.compile(re.escape(search_term), re.IGNORECASE)\n    matches = pattern.finditer(context)\n    \n    for match in list(matches)[:3]:  # Max 3 per term\n        start = max(0, match.start() - 1000)\n        end = min(len(context), match.end() + 1000)\n        section = context[start:end]\n        relevant_sections.append(section)\n        print(f\"Found match for \x27\x7bsearch_term\x7d\x27 at position \x7bmatch.start()\x7d\")\n\n# Process relevant sections only\ncombined_sections = \"\n\n---\n\n\".join(relevant_sections)\nanswer = llm_query(f\"\"\"\nQuery: \x7bquery\x7d\n\nRelevant sections:\n\x7bcombined_sections\x7d\n\nAnswer the query based on these sections.\n\"\"\")\n\nprint(f\"Answer: \x7banswer\x7d\")\nFINAL(answer)\n\x60\x60\x60\n\n### Strategy 4: Structured Content (Markdown, JSON, Code)\n**When to use**: Documents with clear structure (headings, sections, etc.)\n\n**Approach**: Structure-aware chunking\n\x60\x60\x60python\nimport re\n\n# For markdown, split by headings\nif \x27# \x27 in context or \x27## \x27 in context:\n    # Split by markdown headings\n    sections = re.split(r\x27\n(?=#\x7b1,3\x7d )\x27, context)\n    print(f\"Found \x7blen(sections)\x7d markdown sections\")\n    \n    # Process each section\n    section_summaries = []\n    for i, section in enumerate(sections):\n        # Extract heading\n        heading_match = re.match(r\x27(#\x7b1,3\x7d) (.+)\x27, section)\n        heading = heading_match.group(2) if heading_match else f\"Section \x7bi+1\x7d\"\n        \n        # Summarize if section is large\n        if len(section) > 10000:\n            summary = llm_query(f\"\"\"\nSummarize this section in relation to: \x7bquery\x7d\n\nSection: \x7bheading\x7d\nContent:\n\x7bsection[:5000]\x7d\n...\n\"\"\")\n        else:\n            summary = section\n        \n        section_summaries.append(f\"## \x7bheading\x7d\n\x7bsummary\x7d\")\n        print(f\"Processed: \x7bheading\x7d\")\n    \n    # Combine and answer\n    combined = \"\n\n\".join(section_summaries)\n    answer = llm_query(f\"\"\"\nQuery: \x7bquery\x7d\n\nDocument sections:\n\x7bcombined\x7d\n\nAnswer based on the document.\n\"\"\")\n    \n    FINAL(answer)\n\n# For JSON, process by keys\nelif context.strip().startswith(\x27\x7b\x27):\n    import json\n    try:\n        data = json.loads(context)\n        # Process JSON structure\n        keys = list(data.keys())\n        print(f\"JSON keys: \x7bkeys\x7d\")\n        \n        # Query about structure\n        answer = llm_query(f\"\"\"\nQuery: \x7bquery\x7d\n\nJSON data keys: \x7bkeys\x7d\nSample: \x7bstr(data)[:1000]\x7d\n\nAnswer the query based on this JSON data.\n\"\"\")\n        \n        FINAL(answer)\n    except:\n        print(\"JSON parse failed, falling back to text processing\")\n\x60\x60\x60\n\n### Strategy 5: Iterative Reading\n**When to use**: Sequential analysis, building understanding progressively\n\n**Approach**: Sequential processing with state maintenance\n\x60\x60\x60python\n# Read in sequence, maintaining state\nunderstanding = \"\"\nchunk_size = 100000\nnum_chunks = (len(context) + chunk_size - 1) // chunk_size\n\nprint(f\"Iterative reading: \x7bnum_chunks\x7d chunks\")\n\nfor i in range(num_chunks):\n    start = i * chunk_size\n    end = min((i + 1) * chunk_size, len(context))\n    chunk = context[start:end]\n    \n    # Update understanding with each chunk\n    understanding = llm_query(f\"\"\"\nPrevious understanding: \x7bunderstanding\x7d\n\nNew chunk (\x7bi+1\x7d/\x7bnum_chunks\x7d):\n\x7bchunk\x7d\n\nUpdate your understanding. What key points should be retained?\nKeep response under 500 words.\n\"\"\")\n    \n    print(f\"Chunk \x7bi+1\x7d/\x7bnum_chunks\x7d processed\")\n    print(f\"Understanding: \x7bunderstanding[:200]\x7d...\")\n\n# Final answer based on accumulated understanding\nanswer = llm_query(f\"\"\"\nQuery: \x7bquery\x7d\n\nAccumulated understanding from iterative reading:\n\x7bunderstanding\x7d\n\nProvide a comprehensive answer.\n\"\"\")\n\nFINAL(answer)\n\x60\x60\x60\n\n## Task Patterns\n\nApply these patterns based on task type:\n\n### Pattern A: Simple Questions\n**When to use**: Direct questions with clear answers\n\n\x60\x60\x60python\n# Check memory first\nmem_results = memory_search(query, k=5)\nif mem_results:\n    print(f\"Found \x7blen(mem_results)\x7d memory entries\")\n    # Use memory to answer\n    answer = llm_query(f\"\"\"\nQuestion: \x7bquery\x7d\n\nKnown information:\n\x7bmem_results\x7d\n\nProvide a direct answer based on known information.\n\"\"\")\nelse:\n    # Answer directly if no context needed\n    answer = llm_query(f\"Question: \x7bquery\x7d\n\nProvide a direct, concise answer.\")\n\nFINAL(answer)\n\x60\x60\x60\n\n### Pattern B: Document/Context Analysis\n**When to use**: Analyzing provided documents or contexts\n\n\x60\x60\x60python\n# Determine context size and apply appropriate strategy\ncontext_len = len(context)\nprint(f\"Context length: \x7bcontext_len\x7d characters\")\n\nif context_len < 500000:\n    # Strategy 1: Direct processing\n    answer = llm_query(f\"Analyze: \x7bquery\x7d\n\nDocument:\n\x7bcontext\x7d\")\nelif context_len < 2000000:\n    # Strategy 2: Chunk and aggregate\n    # (See Strategy 2 code above)\n    pass\nelse:\n    # Strategy 3: Targeted search\n    # (See Strategy 3 code above)\n    pass\n\nFINAL(answer)\n\x60\x60\x60\n\n### Pattern C: Multi-Step Tasks\n**When to use**: Tasks requiring multiple operations in sequence\n\n\x60\x60\x60python\n# Define steps\nsteps = [\n    \"Step 1: Extract key information\",\n    \"Step 2: Process information\",\n    \"Step 3: Generate output\"\n]\n\nresults = \x7b\x7d\n\nfor step_desc in steps:\n    print(f\"Executing: \x7bstep_desc\x7d\")\n    \n    # Build context from previous results\n    context_str = \"\n\".join([f\"\x7bk\x7d: \x7bv\x7d\" for k, v in results.items()])\n    \n    result = llm_query(f\"\"\"\nTask: \x7bquery\x7d\nCurrent step: \x7bstep_desc\x7d\nPrevious results: \x7bcontext_str\x7d\n\nExecute this step and provide output.\n\"\"\")\n    \n    results[step_desc] = result\n    print(f\"Result: \x7bresult[:150]\x7d...\")\n\n# Combine results\nfinal_result = llm_query(f\"\"\"\nTask: \x7bquery\x7d\n\nAll step results:\n\x7bresults\x7d\n\nSynthesize final output.\n\"\"\")\n\nFINAL(final_result)\n\x60\x60\x60\n\n### Pattern D: Research & Writing\n**When to use**: Writing papers, reports, theses from scratch\n\n\x60\x60\x60python\n# Research phase\ntopic = query  # The research topic\nprint(f\"Research topic: \x7btopic\x7d\")\n\n# Check existing knowledge\nprior = memory_search(topic, k=10)\nprint(f\"Found \x7blen(prior)\x7d relevant memory entries\")\n\n# Define research questions\nresearch_questions = [\n    f\"What is the current state of \x7btopic\x7d?\",\n    f\"What are the key challenges in \x7btopic\x7d?\",\n    f\"What solutions or approaches exist for \x7btopic\x7d?\",\n    f\"What are recent developments in \x7btopic\x7d?\"\n]\n\n# Gather findings\nfindings = \x7b\x7d\nfor rq in research_questions:\n    print(f\"Researching: \x7brq\x7d\")\n    answer = llm_query(f\"\"\"\nResearch question: \x7brq\x7d\n\nPrior knowledge:\n\x7bprior\x7d\n\nProvide a comprehensive answer with specific details and examples.\n\"\"\")\n    findings[rq] = answer\n    print(f\"Answer: \x7banswer[:200]\x7d...\")\n\n# Create outline\noutline = llm_query(f\"\"\"\nTopic: \x7btopic\x7d\n\nResearch findings:\n\x7bchr(10).join([f\"Q: \x7bq\x7d\nA: \x7ba\x7d\n\" for q, a in findings.items()])\x7d\n\nCreate a detailed outline for a \x7bdocument_type\x7d on this topic.\nInclude main sections and key points for each.\n\"\"\")\n\nprint(f\"Outline created:\n\x7boutline\x7d\")\n\n# Write sections\ndocument_sections = \x7b\x7d\nsection_names = [\x27Introduction\x27, \x27Background\x27, \x27Analysis\x27, \x27Discussion\x27, \x27Conclusion\x27]\n\nfor section_name in section_names:\n    print(f\"Writing section: \x7bsection_name\x7d\")\n    \n    section_content = llm_query(f\"\"\"\nDocument: \x7btopic\x7d\nSection: \x7bsection_name\x7d\n\nOutline:\n\x7boutline\x7d\n\nResearch findings:\n\x7bfindings\x7d\n\nPreviously written sections:\n\x7bdocument_sections\x7d\n\nWrite a comprehensive \x7bsection_name\x7d section. Include specific details,\nexamples, and maintain coherence with other sections.\n\"\"\")\n    \n    document_sections[section_name] = section_content\n    print(f\"Section written: \x7blen(section_content)\x7d chars\")\n\n# Combine into final document\nfinal_document = \"\n\n\".join([f\"# \x7bname\x7d\n\n\x7bcontent\x7d\" \n                               for name, content in document_sections.items()])\n\nprint(f\"Document complete: \x7blen(final_document)\x7d chars\")\nFINAL(final_document)\n\x60\x60\x60\n\n### Pattern E: Code Analysis/Generation\n**When to use**: Analyzing code repositories or generating code\n\n\x60\x60\x60python\n# For code repository analysis\nimport os\n\n# If analyzing a codebase structure\nif \x27analyze\x27 in query.lower():\n    # Get overview\n    overview = llm_query(f\"\"\"\nCode context:\n\x7bcontext[:10000]\x7d\n\nAnalyze:\n1. What is the primary purpose of this code?\n2. What are the main components/modules?\n3. What patterns or architectures are used?\n4. What are potential issues or improvements?\n\nProvide structured analysis.\n\"\"\")\n    \n    print(f\"Overview: \x7boverview\x7d\")\n    \n    # Deep dive on specific aspects\n    aspects = [\x27Architecture\x27, \x27Code Quality\x27, \x27Potential Issues\x27]\n    detailed_analysis = \x7b\x7d\n    \n    for aspect in aspects:\n        analysis = llm_query(f\"\"\"\nCode: \x7bcontext[:20000]\x7d\nFocus: \x7baspect\x7d\nOverview: \x7boverview\x7d\n\nProvide detailed analysis of \x7baspect\x7d.\n\"\"\")\n        detailed_analysis[aspect] = analysis\n        print(f\"\x7baspect\x7d: \x7banalysis[:150]\x7d...\")\n    \n    # Compile report\n    report = f\"# Code Analysis\n\n## Overview\n\x7boverview\x7d\n\n\"\n    for aspect, analysis in detailed_analysis.items():\n        report += f\"## \x7baspect\x7d\n\x7banalysis\x7d\n\n\"\n    \n    FINAL(report)\n\n# For code generation\nelse:\n    # Generate code step by step\n    spec = llm_query(f\"\"\"\nRequest: \x7bquery\x7d\n\nBreak this down into:\n1. Required functions/classes\n2. Input/output specifications\n3. Key algorithms or logic\n\nProvide structured specification.\n\"\"\")\n    \n    print(f\"Specification: \x7bspec\x7d\")\n    \n    code = llm_query(f\"\"\"\nRequest: \x7bquery\x7d\nSpecification: \x7bspec\x7d\n\nGenerate complete, working Python code.\nInclude docstrings and error handling.\n\"\"\")\n    \n    print(\"Generated code:\")\n    print(code)\n    \n    FINAL(code)\n\x60\x60\x60\n\n### Pattern F: Information Aggregation\n**When to use**: Combining information from multiple sources\n\n\x60\x60\x60python\n# Query multiple sources or aspects\naspects = query.split(\x27,\x27)  # Assuming comma-separated aspects\nprint(f\"Aggregating information on \x7blen(aspects)\x7d aspects\")\n\naggregated_info = \x7b\x7d\n\nfor aspect in aspects:\n    aspect = aspect.strip()\n    \n    # Check memory for this aspect\n    mem_info = memory_search(aspect, k=3)\n    \n    # If context provided, extract relevant info\n    if \x27context\x27 in locals() and context:\n        info = llm_query(f\"\"\"\nAspect: \x7baspect\x7d\nContext: \x7bcontext[:50000]\x7d\nMemory: \x7bmem_info\x7d\n\nExtract and summarize information about this aspect.\n\"\"\")\n    else:\n        info = llm_query(f\"\"\"\nAspect: \x7baspect\x7d\nKnown information: \x7bmem_info\x7d\n\nProvide comprehensive information about this aspect.\n\"\"\")\n    \n    aggregated_info[aspect] = info\n    print(f\"\x7baspect\x7d: \x7binfo[:100]\x7d...\")\n\n# Synthesize\nsynthesis = llm_query(f\"\"\"\nQuery: \x7bquery\x7d\n\nInformation gathered:\n\x7bchr(10).join([f\"- \x7bk\x7d: \x7bv\x7d\" for k, v in aggregated_info.items()])\x7d\n\nSynthesize this information into a coherent response.\n\"\"\")\n\nFINAL(synthesis)\n\x60\x60\x60\n\n## Special Case Handling\n\n### When context variable exists\n\x60\x60\x60python\nif \x27context\x27 in locals() and context:\n    context_len = len(context)\n    print(f\"Context detected: \x7bcontext_len\x7d chars\")\n    \n    # Apply appropriate strategy based on size\n    if context_len < 500000:\n        # Use Strategy 1\n        pass\n    elif context_len < 2000000:\n        # Use Strategy 2\n        pass\n    else:\n        # Use Strategy 3\n        pass\nelse:\n    print(\"No context provided\")\n    # Check memory or answer directly\n\x60\x60\x60\n\n### When memory is relevant\n\x60\x60\x60python\n# Always check memory first for relevant topics\nquery_terms = query.lower().split()\nrelevant_memories = memory_search(query, k=10)\n\nif relevant_memories:\n    print(f\"Found \x7blen(relevant_memories)\x7d relevant memories\")\n    # Use memory in your processing\nelse:\n    print(\"No relevant memories found\")\n\x60\x60\x60\n\n### When task is ambiguous\n\x60\x60\x60python\n# Clarify the task first\nclarification = llm_query(f\"\"\"\nUser request: \x7bquery\x7d\n\nThis request could mean:\n1. [Interpretation 1]\n2. [Interpretation 2]\n3. [Interpretation 3]\n\nWhich interpretation is most likely? Or does it need clarification?\nRespond with the most reasonable interpretation and proceed with that.\n\"\"\")\n\nprint(f\"Interpretation: \x7bclarification\x7d\")\n# Then proceed with the clarified task\n\x60\x60\x60\n\n### When errors occur\n\x60\x60\x60python\ntry:\n    # Your main processing logic\n    result = process_query(query)\n    FINAL(result)\nexcept Exception as e:\n    print(f\"Error occurred: \x7be\x7d\")\n    \n    # Attempt recovery\n    fallback_result = llm_query(f\"\"\"\nAn error occurred while processing: \x7bquery\x7d\nError: \x7be\x7d\n\nProvide a best-effort answer or explanation of what went wrong.\n\"\"\")\n    \n    print(f\"Fallback result: \x7bfallback_result\x7d\")\n    FINAL(fallback_result)\n\x60\x60\x60\n\n## Output Format\n\n### For direct text answers\n\x60\x60\x60python\n# Use FINAL() to return text directly\nanswer = \"The answer is...\"\nFINAL(answer)\n\x60\x60\x60\n\n### For returning variables\n\x60\x60\x60python\n# Use FINAL_VAR() to return a Python variable\nresult_data = \x7b\n    \x27summary\x27: \x27...\x27,\n    \x27details\x27: [...],\n    \x27conclusion\x27: \x27...\x27\n\x7d\nFINAL_VAR(result_data)\n\x60\x60\x60\n\n## Critical Rules\n\n1. **Don\x27t just plan\u00e2\u20ac\u201dexecute**\n   - Never respond with \"I would do X, then Y, then Z\"\n   - Actually DO X, Y, and Z with code\n\n2. **Show your work with print()**\n   - Print intermediate results\n   - Show progress through multi-step tasks\n   - Make your reasoning visible\n\n3. **Handle errors gracefully**\n   - Use try/except blocks for risky operations\n   - Provide fallback approaches\n   - Explain what went wrong\n\n4. **Be efficient with sub-LLMs**\n   - Don\x27t call llm_query() unnecessarily\n   - Batch similar queries when possible\n   - Reuse results in variables\n\n5. **Verify before finishing**\n   - Check that your answer actually addresses the query\n   - Validate outputs make sense\n   - Test code before returning it\n\n6. **Memory first, compute second**\n   - Always check memory_search() before heavy processing\n   - Use memory_count() to gauge available knowledge\n   - Build on existing knowledge rather than starting from scratch\n\n## Example: Complete Task Execution\n\nHere\x27s a complete example showing best practices:\n\n\x60\x60\x60python\n# 1. Understand the task\nquery = \"Analyze the provided research paper and identify key contributions\"\nprint(f\"Task: \x7bquery\x7d\")\n\n# 2. Check memory first\nprior = memory_search(\"research paper analysis\", k=5)\nprint(f\"Prior knowledge: \x7blen(prior)\x7d entries\")\n\n# 3. Assess context\nif \x27context\x27 in locals():\n    context_len = len(context)\n    print(f\"Context provided: \x7bcontext_len\x7d chars\")\nelse:\n    context_len = 0\n    print(\"No context provided\")\n\n# 4. Choose appropriate strategy\nif context_len < 500000:\n    # Direct analysis\n    analysis = llm_query(f\"\"\"\n    Analyze this research paper and identify:\n    1. Main research question\n    2. Methodology\n    3. Key contributions\n    4. Impact and significance\n    \n    Paper:\n    \x7bcontext\x7d\n    \n    Prior knowledge about paper analysis:\n    \x7bprior\x7d\n    \"\"\")\n    \n    print(\"Analysis complete\")\n    FINAL(analysis)\nelse:\n    # Chunk-based analysis for larger papers\n    sections = [\x27Abstract\x27, \x27Introduction\x27, \x27Methods\x27, \x27Results\x27, \x27Discussion\x27, \x27Conclusion\x27]\n    findings = \x7b\x7d\n    \n    for section in sections:\n        # Find section in context\n        section_pattern = f\"#\x7b1,3\x7d \x7bsection\x7d\"\n        # ... extract section ...\n        \n        if section_text:\n            analysis = llm_query(f\"Analyze the \x7bsection\x7d section: \x7bsection_text[:5000]\x7d\")\n            findings[section] = analysis\n            print(f\"\x7bsection\x7d: \x7banalysis[:100]\x7d...\")\n    \n    # Synthesize\n    final_analysis = llm_query(f\"\"\"\n    Research paper analysis by section:\n    \x7bfindings\x7d\n    \n    Synthesize into: 1) Main question, 2) Methodology, 3) Key contributions, 4) Impact\n    \"\"\")\n    \n    FINAL(final_analysis)\n\x60\x60\x60\n\nRemember: **Execute, don\x27t describe. Show your work. Be efficient. Verify results.**\n"

/-- Embeds Python `str.lower()` as used on `context_type` in
`get_system_prompt_with_context` (src/prompts.py:879); the mapping is
ASCII lowercasing, which coincides with CPython on the alphabets compared
against the recognized-format list. -/
def pyLower (s : String) : String := ⟨s.data.map Char.toLower⟩

/-- Embeds the Python slice `s[:k]` on strings: the first `k` code points
(all of `s` when `s` is shorter). -/
def pyTake (k : Nat) (s : String) : String := ⟨s.data.take k⟩

/-- Helper for the `{:,}` format specifier: the input is a digit list,
least-significant digit first, and a comma is inserted after every group
of three digits. -/
def insertCommas : List Char → List Char
  | a :: b :: c :: d :: rest => a :: b :: c :: ',' :: insertCommas (d :: rest)
  | l => l

/-- Embeds the Python format expression `f"{n:,}"` for an `int`: decimal
digits grouped in threes by commas, with a leading minus sign when
negative. -/
def formatComma (i : Int) : String :=
  if i < 0 then "-" ++ ⟨(insertCommas (Nat.toDigits 10 i.natAbs).reverse).reverse⟩
  else ⟨(insertCommas (Nat.toDigits 10 i.toNat).reverse).reverse⟩

/-- The Strategy 1 recommendation line appended at src/prompts.py:870. -/
def strategy1Line : String := "  - *Recommended Strategy*: Strategy 1 (Direct processing)\n"

/-- The Strategy 2 recommendation line appended at src/prompts.py:872. -/
def strategy2Line : String := "  - *Recommended Strategy*: Strategy 2 (Chunk and aggregate)\n"

/-- The Strategy 3 recommendation line appended at src/prompts.py:874. -/
def strategy3Line : String := "  - *Recommended Strategy*: Strategy 3 (Targeted search)\n"

/-- The Strategy 4 recommendation line appended at src/prompts.py:880. -/
def strategy4Line : String := "  - *Recommended Strategy*: Strategy 4 (Structure-aware chunking)\n"

/-- The fixed list of recognized structured formats tested at
src/prompts.py:879. -/
def recognizedFormats : List String := ["markdown", "json", "xml", "html", "code"]

/-- Embeds the body of `get_system_prompt_with_context`
(src/prompts.py:847-888) up to the final concatenation: the local
variable `context_info`, built by the same sequence of conditional
appends as the Python code. -/
def contextInfo (context_type : Option String) (context_length : Option Int)
    (context_structure : Option String) (context_preview : Option String) : String :=
  let ci := "\n\n## Current Task Context\n\n"
  let ci := match context_length with
    | none => ci
    | some n =>
      let ci := ci ++ "- **Context Length**: " ++ formatComma n ++ " characters\n"
      if n < 500000 then ci ++ strategy1Line
      else if n < 2000000 then ci ++ strategy2Line
      else ci ++ strategy3Line
  let ci := match context_type with
    | none => ci
    | some t =>
      let ci := ci ++ "- **Context Type**: " ++ t ++ "\n"
      if pyLower t ∈ recognizedFormats then ci ++ strategy4Line else ci
  let ci := match context_structure with
    | none => ci
    | some s => ci ++ "- **Structure**: " ++ s ++ "\n"
  let ci := match context_preview with
    | none => ci
    | some p => ci ++ "\n### Context Preview\n\n\x60\x60\x60\n" ++ pyTake 500 p ++ "\n...\n\x60\x60\x60\n"
  ci

/-- Embeds `get_system_prompt` (src/prompts.py:837-844). -/
def get_system_prompt : String := MOSAIC_SYSTEM_PROMPT

/-- Embeds `get_system_prompt_with_context` (src/prompts.py:847-888);
the four Python keyword parameters, all defaulting to `None`, are the four
`Option` arguments. -/
def get_system_prompt_with_context (context_type : Option String)
    (context_length : Option Int) (context_structure : Option String)
    (context_preview : Option String) : String :=
  MOSAIC_SYSTEM_PROMPT ++ contextInfo context_type context_length context_structure context_preview

/-- Embeds the local f-string `research_addendum` of
`get_system_prompt_for_research` (src/prompts.py:902-937). -/
def researchAddendum (topic : String) (document_type : String) : String :=
  "\n\n## Current Research Task\n\nYou are tasked with researching and writing a " ++
  document_type ++
  " on the topic: **" ++
  topic ++
  "**\n\n### Recommended Approach\n\n1. **Research Phase** (Pattern D):\n   - Check memory_search(\"" ++
  topic ++
  "\", k=10) for prior knowledge\n   - Define 4-6 key research questions\n   - Use llm_query() to investigate each question\n   - Gather and organize findings\n\n2. **Planning Phase**:\n   - Create a detailed outline based on findings\n   - Identify main sections (Introduction, Background, Analysis, etc.)\n   - Note key points for each section\n\n3. **Writing Phase**:\n   - Write each section using llm_query()\n   - Maintain coherence between sections\n   - Include specific details and examples\n   - Build progressively on previous sections\n\n4. **Review Phase**:\n   - Check completeness and flow\n   - Verify all requirements are met\n   - Ensure proper structure and formatting\n\n### Expected Output\n\nReturn the complete " ++
  document_type ++
  " using FINAL() with proper formatting, citations, and structure.\n\n**Now proceed with the research and writing task using Pattern D from the main prompt.**\n"

/-- Embeds `get_system_prompt_for_research` (src/prompts.py:891-939);
the Python default `document_type="research paper"` is applied by the call
wrapper `callResearch` below. -/
def get_system_prompt_for_research (topic : String) (document_type : String) : String :=
  MOSAIC_SYSTEM_PROMPT ++ researchAddendum topic document_type

/-- Embeds the local f-string `code_addendum` of
`get_system_prompt_for_code` (src/prompts.py:952-985). -/
def codeAddendum (task_description : String) : String :=
  "\n\n## Current Code Task\n\nYou are tasked with: **" ++
  task_description ++
  "**\n\n### Recommended Approach\n\nUse **Pattern E: Code Analysis/Generation** from the main prompt.\n\n#### For Code Analysis:\n1. Examine code structure and organization\n2. Identify patterns, architectures, and design choices\n3. Assess code quality and potential issues\n4. Provide actionable recommendations\n\n#### For Code Generation:\n1. Break down requirements into specifications\n2. Design function/class structure\n3. Generate clean, documented code\n4. Include error handling and edge cases\n5. Test and verify the implementation\n\n### Code Quality Standards\n\nEnsure all code:\n- Has clear docstrings and comments\n- Includes type hints where applicable\n- Handles errors gracefully\n- Follows Python best practices (PEP 8)\n- Is tested with examples\n\n**Now proceed with the code task using Pattern E from the main prompt.**\n"

/-- Embeds `get_system_prompt_for_code` (src/prompts.py:942-987). -/
def get_system_prompt_for_code (task_description : String) : String :=
  MOSAIC_SYSTEM_PROMPT ++ codeAddendum task_description

/-- Embeds the local f-string `analysis_addendum` of
`get_system_prompt_for_analysis` (src/prompts.py:1000-1036). -/
def analysisAddendum (context_description : String) : String :=
  "\n\n## Current Analysis Task\n\nYou will analyze: **" ++
  context_description ++
  "**\n\n### Recommended Approach\n\n1. **Initial Assessment**:\n   - Check context length with len(context)\n   - Identify structure and format\n   - Choose appropriate strategy (1-5)\n\n2. **Analysis Phase** (Pattern B):\n   - Apply chosen strategy for context processing\n   - Extract key information systematically\n   - Note important details and relationships\n\n3. **Synthesis Phase**:\n   - Aggregate findings\n   - Draw connections and insights\n   - Address specific query requirements\n\n4. **Output Phase**:\n   - Present analysis clearly\n   - Include supporting evidence\n   - Provide actionable conclusions\n\n### Key Considerations\n\n- **Small contexts** (< 500K chars): Use direct analysis\n- **Medium contexts** (500K-2M chars): Chunk and aggregate\n- **Large contexts** (> 2M chars): Use targeted search\n- **Structured content**: Leverage structure for efficient processing\n\n**Now proceed with the analysis task using appropriate strategies from the main prompt.**\n"

/-- Embeds `get_system_prompt_for_analysis` (src/prompts.py:990-1038). -/
def get_system_prompt_for_analysis (context_description : String) : String :=
  MOSAIC_SYSTEM_PROMPT ++ analysisAddendum context_description

/-- The spec's single error class: `InvalidArgument`, the class of the
`TypeError` CPython raises when a required positional argument is
missing. -/
inductive PromptError where
  | invalidArgument : String → PromptError
deriving DecidableEq

/-- The CPython error message for a call of `get_system_prompt_for_research`
without `topic`. -/
def researchMissingMsg : String :=
  "get_system_prompt_for_research() missing 1 required positional argument: \x27topic\x27"

/-- The CPython error message for a call of `get_system_prompt_for_code`
without `task_description`. -/
def codeMissingMsg : String :=
  "get_system_prompt_for_code() missing 1 required positional argument: \x27task_description\x27"

/-- The CPython error message for a call of `get_system_prompt_for_analysis`
without `context_description`. -/
def analysisMissingMsg : String :=
  "get_system_prompt_for_analysis() missing 1 required positional argument: \x27context_description\x27"

/-- Embeds the Python call semantics of
`get_system_prompt_for_research(topic, document_type="research paper")`
(src/prompts.py:891): `topic` is required, so a call omitting it raises
`TypeError` before the body runs and no output is produced; omitting
`document_type` fills in the default `"research paper"`. -/
def callResearch (topic : Option String) (document_type : Option String) :
    Except PromptError String :=
  match topic with
  | none => Except.error (PromptError.invalidArgument researchMissingMsg)
  | some t => Except.ok (get_system_prompt_for_research t (document_type.getD "research paper"))

/-- Embeds the Python call semantics of
`get_system_prompt_for_code(task_description)` (src/prompts.py:942). -/
def callCode (task_description : Option String) : Except PromptError String :=
  match task_description with
  | none => Except.error (PromptError.invalidArgument codeMissingMsg)
  | some t => Except.ok (get_system_prompt_for_code t)

/-- Embeds the Python call semantics of
`get_system_prompt_for_analysis(context_description)` (src/prompts.py:990). -/
def callAnalysis (context_description : Option String) : Except PromptError String :=
  match context_description with
  | none => Except.error (PromptError.invalidArgument analysisMissingMsg)
  | some t => Except.ok (get_system_prompt_for_analysis t)

/-- `pat` occurs verbatim as a contiguous substring of `s`. -/
def occursIn (pat s : String) : Prop := ∃ pre post, s = pre ++ pat ++ post

/-- Boolean test that `pat` is a prefix of `s` (character lists). -/
def startsWithChars : List Char → List Char → Bool
  | [], _ => true
  | _ :: _, [] => false
  | a :: as, b :: bs => a == b && startsWithChars as bs

/-- Index of the first occurrence of `pat` in a character list, if any. -/
def findSubChars (pat : List Char) : List Char → Option Nat
  | [] => if startsWithChars pat [] then some 0 else none
  | c :: t =>
    if startsWithChars pat (c :: t) then some 0
    else (findSubChars pat t).map (· + 1)

/-- The part of `context_info` contributed by the `context_length`
block (src/prompts.py:865-874): nothing when the parameter is omitted. -/
def lengthSection : Option Int → String
  | none => ""
  | some n =>
    let base := "- **Context Length**: " ++ formatComma n ++ " characters\n"
    if n < 500000 then base ++ strategy1Line
    else if n < 2000000 then base ++ strategy2Line
    else base ++ strategy3Line

/-- The part of `context_info` contributed by the `context_type` block
(src/prompts.py:876-880). -/
def typeSection : Option String → String
  | none => ""
  | some t =>
    let base := "- **Context Type**: " ++ t ++ "\n"
    if pyLower t ∈ recognizedFormats then base ++ strategy4Line else base

/-- The part of `context_info` contributed by the `context_structure`
block (src/prompts.py:882-883). -/
def structureSection : Option String → String
  | none => ""
  | some s => "- **Structure**: " ++ s ++ "\n"

/-- The part of `context_info` contributed by the `context_preview`
block (src/prompts.py:885-886). -/
def previewSection : Option String → String
  | none => ""
  | some p => "\n### Context Preview\n\n\x60\x60\x60\n" ++ pyTake 500 p ++ "\n...\n\x60\x60\x60\n"

/-- The sequential conditional appends of `get_system_prompt_with_context`
amount to the concatenation of the four independent parameter sections, in
the order length, type, structure, preview. -/
theorem contextInfo_decomp (ct : Option String) (cl : Option Int)
    (cs cp : Option String) :
    contextInfo ct cl cs cp =
      "\n\n## Current Task Context\n\n" ++ lengthSection cl ++ typeSection ct ++
        structureSection cs ++ previewSection cp := by
  cases ct <;> cases cl <;> cases cs <;> cases cp <;>
    simp only [contextInfo, lengthSection, typeSection, structureSection,
      previewSection, String.append_assoc, String.append_empty] <;>
    split_ifs <;>
    simp [String.append_assoc, String.append_empty]

/-- Exhibiting a decomposition proves occurrence. -/
theorem occursIn_of (pat a c s : String) (h : s = a ++ pat ++ c) :
    occursIn pat s := ⟨a, c, h⟩

/-- Occurrence in the left part of a concatenation. -/
theorem occursIn_append_left (pat s t : String) (h : occursIn pat s) :
    occursIn pat (s ++ t) := by
  obtain ⟨a, c, rfl⟩ := h
  exact ⟨a, c ++ t, by simp [String.append_assoc]⟩

/-- Occurrence in the right part of a concatenation. -/
theorem occursIn_append_right (pat s t : String) (h : occursIn pat t) :
    occursIn pat (s ++ t) := by
  obtain ⟨a, c, rfl⟩ := h
  exact ⟨s ++ a, c, by simp [String.append_assoc]⟩

/-- A string occurs at the end of a concatenation. -/
theorem occursIn_append_end (pat x : String) : occursIn pat (x ++ pat) :=
  ⟨x, "", by simp⟩

/-- The `context_length` block when the length falls in the first bucket. -/
theorem lengthSection_lt (n : Int) (h : n < 500000) :
    lengthSection (some n) =
      ("- **Context Length**: " ++ formatComma n ++ " characters\n") ++ strategy1Line := by
  simp only [lengthSection]
  rw [if_pos h]

/-- The `context_length` block when the length falls in the middle bucket. -/
theorem lengthSection_mid (n : Int) (h1 : 500000 ≤ n) (h2 : n < 2000000) :
    lengthSection (some n) =
      ("- **Context Length**: " ++ formatComma n ++ " characters\n") ++ strategy2Line := by
  simp only [lengthSection]
  rw [if_neg (not_lt.mpr h1), if_pos h2]

/-- The `context_length` block when the length falls in the last bucket. -/
theorem lengthSection_ge (n : Int) (h : 2000000 ≤ n) :
    lengthSection (some n) =
      ("- **Context Length**: " ++ formatComma n ++ " characters\n") ++ strategy3Line := by
  simp only [lengthSection]
  rw [if_neg (not_lt.mpr (le_trans (by norm_num) h)), if_neg (not_lt.mpr h)]

/-- C1: in `get_system_prompt_with_context`, whenever `context_length` is
supplied, the appended addendum contains the Strategy 1 (Direct processing)
recommendation when `context_length < 500000`, the Strategy 2 (Chunk and
aggregate) recommendation when `500000 ≤ context_length < 2000000`, and the
Strategy 3 (Targeted search) recommendation when `context_length ≥ 2000000`;
in particular the boundary values 500000 and 2000000 fall in the Strategy 2
and Strategy 3 buckets respectively (see the witness). -/
theorem claim_C1 (ct cs cp : Option String) (n : Int) :
    (n < 500000 → occursIn strategy1Line (contextInfo ct (some n) cs cp)) ∧
    (500000 ≤ n → n < 2000000 → occursIn strategy2Line (contextInfo ct (some n) cs cp)) ∧
    (2000000 ≤ n → occursIn strategy3Line (contextInfo ct (some n) cs cp)) := by
  refine ⟨fun h => ?_, fun h1 h2 => ?_, fun h => ?_⟩
  · refine occursIn_of _
      ("\n\n## Current Task Context\n\n" ++ ("- **Context Length**: " ++ formatComma n ++ " characters\n"))
      (typeSection ct ++ structureSection cs ++ previewSection cp) _ ?_
    rw [contextInfo_decomp, lengthSection_lt n h]
    simp [String.append_assoc]
  · refine occursIn_of _
      ("\n\n## Current Task Context\n\n" ++ ("- **Context Length**: " ++ formatComma n ++ " characters\n"))
      (typeSection ct ++ structureSection cs ++ previewSection cp) _ ?_
    rw [contextInfo_decomp, lengthSection_mid n h1 h2]
    simp [String.append_assoc]
  · refine occursIn_of _
      ("\n\n## Current Task Context\n\n" ++ ("- **Context Length**: " ++ formatComma n ++ " characters\n"))
      (typeSection ct ++ structureSection cs ++ previewSection cp) _ ?_
    rw [contextInfo_decomp, lengthSection_ge n h]
    simp [String.append_assoc]

/-- C1 witness: concrete calls, including both boundary values: 100 and
the boundaries 500000 (Strategy 2) and 2000000 (Strategy 3). -/
theorem claim_C1_witness :
    occursIn strategy1Line (contextInfo none (some 100) none none) ∧
    occursIn strategy2Line (contextInfo none (some 500000) none none) ∧
    occursIn strategy3Line (contextInfo none (some 2000000) none none) :=
  ⟨(claim_C1 none none none 100).1 (by decide),
   (claim_C1 none none none 500000).2.1 (by decide) (by decide),
   (claim_C1 none none none 2000000).2.2 (by decide)⟩

/-- C2 counterexample: with `context_type="text"` and `context_length=100`
both supplied, the Context Length line occurs at index 27 of the addendum
while the Context Type line occurs at index 123: the Context Type line does
NOT appear before the Context Length line, contradicting the claimed
parameter order contextType, contextLength (the code handles
`context_length` first, src/prompts.py:865 vs 876). -/
theorem claim_C2_counterexample :
    findSubChars ("- **Context Length**".data)
        (contextInfo (some "text") (some 100) none none).data = some 27 ∧
    findSubChars ("- **Context Type**".data)
        (contextInfo (some "text") (some 100) none none).data = some 123 ∧
    ¬ (123 : Nat) < 27 := by
  refine ⟨?_, ?_, by decide⟩ <;> decide

/-- C2 (amended): in the addendum built by `get_system_prompt_with_context`,
an omitted (`None`) parameter contributes no corresponding line, and the
appended lines appear in the order contextLength, contextType,
contextStructure, contextPreview — the code appends the Context Length
block first, so when both are supplied the Context Length line appears
before the Context Type line (not after it, as the spec's parameter-order
sentence would have it). -/
theorem claim_C2 (ct : Option String) (cl : Option Int) (cs cp : Option String) :
    contextInfo ct cl cs cp =
      "\n\n## Current Task Context\n\n" ++ lengthSection cl ++ typeSection ct ++
        structureSection cs ++ previewSection cp ∧
    lengthSection none = "" ∧ typeSection none = "" ∧
    structureSection none = "" ∧ previewSection none = "" :=
  ⟨contextInfo_decomp ct cl cs cp, rfl, rfl, rfl, rfl⟩

/-- C3: for each builder with a required string parameter, a call omitting
that parameter yields the `InvalidArgument`-class error and no output at
all (the `Except` is an error, never `ok`, so nothing partial is produced
and no required parameter is replaced by an empty string); moreover every
error any of the three wrappers can return is an `InvalidArgument`, and a
call supplying the required parameter always succeeds. -/
theorem claim_C3 :
    (∀ dt, callResearch none dt =
      Except.error (PromptError.invalidArgument researchMissingMsg)) ∧
    callCode none = Except.error (PromptError.invalidArgument codeMissingMsg) ∧
    callAnalysis none = Except.error (PromptError.invalidArgument analysisMissingMsg) ∧
    (∀ dt s, callResearch none dt ≠ Except.ok s) ∧
    (∀ s, callCode none ≠ Except.ok s) ∧
    (∀ s, callAnalysis none ≠ Except.ok s) ∧
    (∀ t dt e, callResearch t dt = Except.error e →
      ∃ m, e = PromptError.invalidArgument m) ∧
    (∀ t e, callCode t = Except.error e → ∃ m, e = PromptError.invalidArgument m) ∧
    (∀ t e, callAnalysis t = Except.error e → ∃ m, e = PromptError.invalidArgument m) ∧
    (∀ t dt, callResearch (some t) dt =
      Except.ok (get_system_prompt_for_research t (dt.getD "research paper"))) ∧
    (∀ t, callCode (some t) = Except.ok (get_system_prompt_for_code t)) ∧
    (∀ t, callAnalysis (some t) = Except.ok (get_system_prompt_for_analysis t)) := by
  refine ⟨fun dt => rfl, rfl, rfl, fun dt s h => by simp [callResearch] at h,
    fun s h => by simp [callCode] at h, fun s h => by simp [callAnalysis] at h,
    fun t dt e _ => ?_, fun t e _ => ?_, fun t e _ => ?_,
    fun t dt => rfl, fun t => rfl, fun t => rfl⟩ <;>
  · cases e with
    | invalidArgument m => exact ⟨m, rfl⟩

/-- C3 witness: the concrete no-`topic` call errors, and its error is of
the `InvalidArgument` class. -/
theorem claim_C3_witness :
    callResearch none none =
      Except.error (PromptError.invalidArgument researchMissingMsg) ∧
    (∃ m, PromptError.invalidArgument researchMissingMsg =
      PromptError.invalidArgument m) :=
  ⟨claim_C3.1 none, claim_C3.2.2.2.2.2.2.1 none none _ rfl⟩

/-- C4: `get_system_prompt` takes no inputs and returns exactly the
Template constant `MOSAIC_SYSTEM_PROMPT`; as a total constant of the
embedding it cannot fail, has no side effects, and any two calls are
character-identical. -/
theorem claim_C4 : get_system_prompt = MOSAIC_SYSTEM_PROMPT := rfl

/-- C5: `get_system_prompt_with_context` appends the Strategy 4
(Structure-aware chunking) recommendation exactly when `context_type` is
supplied and its lowercasing is one of the recognized formats markdown,
json, xml, html, code; the block is appended independently of the length
section (so it can co-occur with a length-based recommendation — see the
witness), and an unrecognized `context_type` yields the Context Type line
with no structure-aware recommendation, never a failure (the embedding is
a total function). -/
theorem claim_C5 (ct : Option String) (cl : Option Int) (cs cp : Option String) :
    (∀ t, ct = some t →
      (pyLower t ∈ recognizedFormats →
        contextInfo ct cl cs cp =
          "\n\n## Current Task Context\n\n" ++ lengthSection cl ++
            (("- **Context Type**: " ++ t ++ "\n") ++ strategy4Line) ++
            structureSection cs ++ previewSection cp) ∧
      (pyLower t ∉ recognizedFormats →
        contextInfo ct cl cs cp =
          "\n\n## Current Task Context\n\n" ++ lengthSection cl ++
            ("- **Context Type**: " ++ t ++ "\n") ++
            structureSection cs ++ previewSection cp)) ∧
    (ct = none →
      contextInfo ct cl cs cp =
        "\n\n## Current Task Context\n\n" ++ lengthSection cl ++
          structureSection cs ++ previewSection cp) := by
  constructor
  · rintro t rfl
    constructor
    · intro hmem
      rw [contextInfo_decomp]
      simp only [typeSection]
      rw [if_pos hmem]
    · intro hmem
      rw [contextInfo_decomp]
      simp only [typeSection]
      rw [if_neg hmem]
  · rintro rfl
    rw [contextInfo_decomp]
    simp [typeSection]

/-- C5 witness: the uppercase spelling "JSON" is recognized
case-insensitively, and with `context_type="markdown"` and
`context_length=200000` the Strategy 4 and Strategy 1 recommendations
co-occur in the same addendum. -/
theorem claim_C5_witness :
    contextInfo (some "JSON") none none none =
      "\n\n## Current Task Context\n\n" ++ lengthSection none ++
        (("- **Context Type**: JSON\n") ++ strategy4Line) ++
        structureSection none ++ previewSection none ∧
    occursIn strategy4Line (contextInfo (some "markdown") (some 200000) none none) ∧
    occursIn strategy1Line (contextInfo (some "markdown") (some 200000) none none) :=
  ⟨((claim_C5 (some "JSON") none none none).1 "JSON" rfl).1 (by decide),
   ⟨"\n\n## Current Task Context\n\n- **Context Length**: 200,000 characters\n  - *Recommended Strategy*: Strategy 1 (Direct processing)\n- **Context Type**: markdown\n",
    "", by decide⟩,
   ⟨"\n\n## Current Task Context\n\n- **Context Length**: 200,000 characters\n",
    "- **Context Type**: markdown\n  - *Recommended Strategy*: Strategy 4 (Structure-aware chunking)\n",
    by decide⟩⟩

/-- C6: when `context_preview` is supplied, the addendum contains its
first min(500, length) characters verbatim as a contiguous substring;
that slice is a prefix of the preview of length min(500, length); and no
character of the preview past position 500 influences the output: any
two previews agreeing on their first 500 characters yield identical
output. -/
theorem claim_C6 (ct : Option String) (cl : Option Int) (cs : Option String)
    (p : String) :
    occursIn (pyTake 500 p) (contextInfo ct cl cs (some p)) ∧
    (pyTake 500 p).length = min 500 p.length ∧
    (∃ rest, p = pyTake 500 p ++ rest) ∧
    (∀ q, pyTake 500 p = pyTake 500 q →
      contextInfo ct cl cs (some p) = contextInfo ct cl cs (some q)) := by
  refine ⟨?_, ?_, ?_, ?_⟩
  · refine occursIn_of _
      ("\n\n## Current Task Context\n\n" ++ lengthSection cl ++ typeSection ct ++
        structureSection cs ++ "\n### Context Preview\n\n\x60\x60\x60\n")
      ("\n...\n\x60\x60\x60\n") _ ?_
    rw [contextInfo_decomp]
    simp [previewSection, String.append_assoc]
  · show (p.data.take 500).length = min 500 p.data.length
    exact p.data.length_take 500
  · refine ⟨⟨p.data.drop 500⟩, String.ext ?_⟩
    simp [pyTake, String.data_append]
  · intro q h
    rw [contextInfo_decomp, contextInfo_decomp]
    simp [previewSection, h]

/-- C6 witness: a 501-character preview and the preview replacing its
501st character give character-identical output. -/
theorem claim_C6_witness :
    contextInfo none none none (some ⟨List.replicate 501 'a'⟩) =
      contextInfo none none none (some ⟨List.replicate 500 'a' ++ ['b']⟩) :=
  (claim_C6 none none none ⟨List.replicate 501 'a'⟩).2.2.2
    ⟨List.replicate 500 'a' ++ ['b']⟩ (by decide)

/-- C7: for every call of each of the five public operations the returned
string's length is the Template's length plus the generated addendum's
length (for `get_system_prompt` the addendum is empty), hence always at
least the Template's length: addenda are strictly additive and the
Template is never shortened (nor mutated: the embedding is pure). -/
theorem claim_C7 :
    get_system_prompt.length = MOSAIC_SYSTEM_PROMPT.length ∧
    (∀ ct cl cs cp,
      (get_system_prompt_with_context ct cl cs cp).length =
        MOSAIC_SYSTEM_PROMPT.length + (contextInfo ct cl cs cp).length ∧
      MOSAIC_SYSTEM_PROMPT.length ≤ (get_system_prompt_with_context ct cl cs cp).length) ∧
    (∀ t dt,
      (get_system_prompt_for_research t dt).length =
        MOSAIC_SYSTEM_PROMPT.length + (researchAddendum t dt).length ∧
      MOSAIC_SYSTEM_PROMPT.length ≤ (get_system_prompt_for_research t dt).length) ∧
    (∀ t,
      (get_system_prompt_for_code t).length =
        MOSAIC_SYSTEM_PROMPT.length + (codeAddendum t).length ∧
      MOSAIC_SYSTEM_PROMPT.length ≤ (get_system_prompt_for_code t).length) ∧
    (∀ t,
      (get_system_prompt_for_analysis t).length =
        MOSAIC_SYSTEM_PROMPT.length + (analysisAddendum t).length ∧
      MOSAIC_SYSTEM_PROMPT.length ≤ (get_system_prompt_for_analysis t).length) := by
  refine ⟨rfl, fun ct cl cs cp => ⟨?_, ?_⟩, fun t dt => ⟨?_, ?_⟩,
    fun t => ⟨?_, ?_⟩, fun t => ⟨?_, ?_⟩⟩ <;>
    simp only [get_system_prompt_with_context, get_system_prompt_for_research,
      get_system_prompt_for_code, get_system_prompt_for_analysis,
      String.length_append] <;>
    omega

/-- The research topic occurs verbatim in the research addendum. -/
theorem occursIn_researchAddendum_topic (topic dt : String) :
    occursIn topic (researchAddendum topic dt) := by
  unfold researchAddendum
  apply occursIn_append_left
  apply occursIn_append_left
  apply occursIn_append_left
  exact occursIn_append_end _ _

/-- The document type occurs verbatim in the research addendum. -/
theorem occursIn_researchAddendum_dt (topic dt : String) :
    occursIn dt (researchAddendum topic dt) := by
  unfold researchAddendum
  apply occursIn_append_left
  exact occursIn_append_end _ _

/-- C8: `get_system_prompt_for_research` returns the Template plus the
fixed research-workflow addendum, in which `topic` and `document_type`
occur verbatim (unescaped) as literal substrings; omitting
`document_type` in a call fills in the default "research paper"; and the
concrete example output for topic "Quantum Computing" and document type
"thesis" contains both literals. -/
theorem claim_C8 (topic dt : String) :
    get_system_prompt_for_research topic dt =
      MOSAIC_SYSTEM_PROMPT ++ researchAddendum topic dt ∧
    occursIn topic (get_system_prompt_for_research topic dt) ∧
    occursIn dt (get_system_prompt_for_research topic dt) ∧
    callResearch (some topic) none =
      Except.ok (get_system_prompt_for_research topic "research paper") ∧
    occursIn "Quantum Computing"
      (get_system_prompt_for_research "Quantum Computing" "thesis") ∧
    occursIn "thesis" (get_system_prompt_for_research "Quantum Computing" "thesis") :=
  ⟨rfl,
   occursIn_append_right _ _ _ (occursIn_researchAddendum_topic topic dt),
   occursIn_append_right _ _ _ (occursIn_researchAddendum_dt topic dt),
   rfl,
   occursIn_append_right _ _ _ (occursIn_researchAddendum_topic "Quantum Computing" "thesis"),
   occursIn_append_right _ _ _ (occursIn_researchAddendum_dt "Quantum Computing" "thesis")⟩

/-- C9 counterexample: the three length-based recommendation lines are not
mutually exclusive as substrings of the addendum: with
`context_length=100` (Strategy 1 bucket) and a `context_preview` that is
itself the Strategy 2 line, the addendum contains both the Strategy 1 and
the Strategy 2 recommendation lines verbatim, so it does not contain
exactly one of the three. -/
theorem claim_C9_counterexample :
    occursIn strategy1Line (contextInfo none (some 100) none (some strategy2Line)) ∧
    occursIn strategy2Line (contextInfo none (some 100) none (some strategy2Line)) :=
  ⟨⟨"\n\n## Current Task Context\n\n- **Context Length**: 100 characters\n",
    "\n### Context Preview\n\n\x60\x60\x60\n  - *Recommended Strategy*: Strategy 2 (Chunk and aggregate)\n\n...\n\x60\x60\x60\n",
    by decide⟩,
   ⟨"\n\n## Current Task Context\n\n- **Context Length**: 100 characters\n  - *Recommended Strategy*: Strategy 1 (Direct processing)\n\n### Context Preview\n\n\x60\x60\x60\n",
    "\n...\n\x60\x60\x60\n",
    by decide⟩⟩

/-- C9 (amended): the `context_length` block of the addendum appends no
recommendation line when `context_length` is `None`, and appends exactly
one of the three pairwise-distinct length-based recommendation lines when
it is supplied — Strategy 1, 2 or 3 according to the threshold trichotomy
— and that line occurs in the full addendum; the three length-based
recommendations are mutually exclusive as appended recommendations,
although echoed parameter values (e.g. a preview quoting a recommendation
line, see the counterexample) can additionally reproduce their text. -/
theorem claim_C9 (cl : Option Int) (n : Int) :
    (cl = none → lengthSection cl = "") ∧
    (cl = some n →
      (n < 500000 →
        lengthSection cl =
          ("- **Context Length**: " ++ formatComma n ++ " characters\n") ++ strategy1Line ∧
        (∀ ct cs cp, occursIn strategy1Line (contextInfo ct cl cs cp))) ∧
      (500000 ≤ n → n < 2000000 →
        lengthSection cl =
          ("- **Context Length**: " ++ formatComma n ++ " characters\n") ++ strategy2Line ∧
        (∀ ct cs cp, occursIn strategy2Line (contextInfo ct cl cs cp))) ∧
      (2000000 ≤ n →
        lengthSection cl =
          ("- **Context Length**: " ++ formatComma n ++ " characters\n") ++ strategy3Line ∧
        (∀ ct cs cp, occursIn strategy3Line (contextInfo ct cl cs cp)))) ∧
    (strategy1Line ≠ strategy2Line ∧ strategy1Line ≠ strategy3Line ∧
      strategy2Line ≠ strategy3Line) := by
  refine ⟨?_, ?_, by decide, by decide, by decide⟩
  · rintro rfl; rfl
  · rintro rfl
    refine ⟨fun h => ⟨lengthSection_lt n h, fun ct cs cp => ?_⟩,
      fun h1 h2 => ⟨lengthSection_mid n h1 h2, fun ct cs cp => ?_⟩,
      fun h => ⟨lengthSection_ge n h, fun ct cs cp => ?_⟩⟩
    · refine occursIn_of _
        ("\n\n## Current Task Context\n\n" ++ ("- **Context Length**: " ++ formatComma n ++ " characters\n"))
        (typeSection ct ++ structureSection cs ++ previewSection cp) _ ?_
      rw [contextInfo_decomp, lengthSection_lt n h]
      simp [String.append_assoc]
    · refine occursIn_of _
        ("\n\n## Current Task Context\n\n" ++ ("- **Context Length**: " ++ formatComma n ++ " characters\n"))
        (typeSection ct ++ structureSection cs ++ previewSection cp) _ ?_
      rw [contextInfo_decomp, lengthSection_mid n h1 h2]
      simp [String.append_assoc]
    · refine occursIn_of _
        ("\n\n## Current Task Context\n\n" ++ ("- **Context Length**: " ++ formatComma n ++ " characters\n"))
        (typeSection ct ++ structureSection cs ++ previewSection cp) _ ?_
      rw [contextInfo_decomp, lengthSection_ge n h]
      simp [String.append_assoc]

/-- C9 witness: at context_length 600000 the block appends the Strategy 2
line (and only it), the line occurs in the addendum, and an omitted
context_length appends nothing. -/
theorem claim_C9_witness :
    lengthSection (some 600000) =
      ("- **Context Length**: " ++ formatComma 600000 ++ " characters\n") ++ strategy2Line ∧
    occursIn strategy2Line (contextInfo none (some 600000) none none) ∧
    lengthSection none = "" ∧
    strategy2Line ≠ strategy1Line :=
  ⟨(((claim_C9 (some 600000) 600000).2.1 rfl).2.1 (by decide) (by decide)).1,
   (((claim_C9 (some 600000) 600000).2.1 rfl).2.1 (by decide) (by decide)).2 none none none,
   (claim_C9 none 0).1 rfl,
   Ne.symm (claim_C9 none 0).2.2.1⟩

/-- C10: every string returned by any of the five public operations is the
Template `MOSAIC_SYSTEM_PROMPT` followed by the operation's addendum; in
particular the entire Template is a literal prefix of every output. -/
theorem claim_C10 :
    MOSAIC_SYSTEM_PROMPT.data <+: get_system_prompt.data ∧
    (∀ ct cl cs cp,
      get_system_prompt_with_context ct cl cs cp =
        MOSAIC_SYSTEM_PROMPT ++ contextInfo ct cl cs cp ∧
      MOSAIC_SYSTEM_PROMPT.data <+: (get_system_prompt_with_context ct cl cs cp).data) ∧
    (∀ t dt,
      get_system_prompt_for_research t dt =
        MOSAIC_SYSTEM_PROMPT ++ researchAddendum t dt ∧
      MOSAIC_SYSTEM_PROMPT.data <+: (get_system_prompt_for_research t dt).data) ∧
    (∀ t,
      get_system_prompt_for_code t = MOSAIC_SYSTEM_PROMPT ++ codeAddendum t ∧
      MOSAIC_SYSTEM_PROMPT.data <+: (get_system_prompt_for_code t).data) ∧
    (∀ t,
      get_system_prompt_for_analysis t = MOSAIC_SYSTEM_PROMPT ++ analysisAddendum t ∧
      MOSAIC_SYSTEM_PROMPT.data <+: (get_system_prompt_for_analysis t).data) := by
  refine ⟨List.prefix_rfl, fun ct cl cs cp => ⟨rfl, ?_⟩, fun t dt => ⟨rfl, ?_⟩,
    fun t => ⟨rfl, ?_⟩, fun t => ⟨rfl, ?_⟩⟩ <;>
    simp only [get_system_prompt_with_context, get_system_prompt_for_research,
      get_system_prompt_for_code, get_system_prompt_for_analysis,
      String.data_append] <;>
    exact List.prefix_append _ _
